import Mathlib

/-!
Verification of the oxysound playlist core (src/playlist.rs, src/error.rs,
src/youtube_api.rs) against its specification.

Shallow embedding conventions:
* Rust `u8` counts are modelled as `Nat` reduced `% 256` exactly where the
  source performs an `as u8` cast (`Playlist::update_fields`,
  `Playlist::fetch_metadata` error construction).
* The async provider call `youtube_api::make_video_request` is modelled as an
  oracle `List String → Except Error Response`; `fetchMetadata` additionally
  returns the list of requests issued to the oracle, so that claims about
  whether a provider call happens are statable.  The source issues exactly one
  call, unconditionally (src/playlist.rs line 193).
* `&mut self` methods become `Playlist → Playlist` state transformers; a
  method returning `Result<()>` becomes `Except Error Unit × Playlist` where
  the second component is the final state (the source mutates nothing before
  its early-error returns, which the embedding makes explicit).
* Persistence is modelled over a JSON value ADT plus a file store
  `FS = String → Option FileContent`.  The serde_json string layer is
  abstracted to values; the one string-level fact the source depends on —
  an empty (zero-length) file is not a valid JSON document and fails
  `serde_json::from_str` — is represented by the distinguished
  `FileContent.emptyFile` state.  Path-alias expansion
  (`utils::expand_path_aliases`) is an external collaborator per the spec and
  is modelled as the identity inside `playlistFilePath`, which both save and
  load use identically.
-/

namespace Oxysound

/-- Embeds `struct Video` (src/playlist.rs lines 12-20): id, title,
published_at (camelCased), url, fetched. -/
structure Video where
  id : String
  title : String
  publishedAt : String
  url : String
  fetched : Bool
  deriving DecidableEq, Repr

/-- Base URL constant used by `Video::update_fields` and `Video::default`. -/
def videoBaseUrl : String := "https://www.youtube.com/watch?v="

/-- Embeds `impl Default for Video` (src/playlist.rs lines 22-32). -/
def Video.default : Video :=
  { id := "", title := "", publishedAt := "", url := videoBaseUrl, fetched := false }

/-- Embeds `Video::update_fields` (src/playlist.rs lines 81-84): url is
recomputed as base url plus id. -/
def Video.updateFields (v : Video) : Video :=
  { v with url := videoBaseUrl ++ v.id }

/-- Embeds `impl From<String> for Video` (src/playlist.rs lines 34-43):
default video with the given id, then `update_fields`. -/
def Video.fromId (id : String) : Video :=
  Video.updateFields { Video.default with id := id }

/-- Embeds `struct ResponseSnippet` (src/youtube_api.rs lines 12-20); all
fields are `Option<String>` (or `Option<Vec<String>>` for tags). -/
structure ResponseSnippet where
  publishedAt : Option String
  channelId : Option String
  title : Option String
  description : Option String
  channelTitle : Option String
  tags : Option (List String)
  categoryId : Option String
  deriving DecidableEq, Repr

/-- Embeds `struct ResponseItem` (src/youtube_api.rs lines 25-29). -/
structure ResponseItem where
  kind : String
  id : String
  snippet : ResponseSnippet
  deriving DecidableEq, Repr

/-- Embeds `struct Response` (src/youtube_api.rs lines 34-37). -/
structure Response where
  kind : String
  items : List ResponseItem
  deriving DecidableEq, Repr

/-- Embeds `impl From<ResponseItem> for Video` (src/playlist.rs lines 45-57):
title and published_at come from the snippet with `unwrap_or_default()`
(empty string when absent), fetched is true, then `update_fields`. -/
def Video.fromResponseItem (r : ResponseItem) : Video :=
  Video.updateFields
    { id := r.id
      title := r.snippet.title.getD ""
      publishedAt := r.snippet.publishedAt.getD ""
      url := videoBaseUrl
      fetched := true }

/-- Embeds `enum Error` (src/error.rs).  The payloads of the variants that
claims never inspect are dropped; `notEnoughResponseItems` carries the two
`u8` counts as naturals already reduced `% 256` at construction sites. -/
inductive Error where
  | missingConfig (what location : String)
  | stringFromPathBuf (path : String)
  | notEnoughResponseItems (expected found : Nat)
  | request
  | io
  | json
  | config
  deriving DecidableEq, Repr

/-- Embeds `struct Playlist` (src/playlist.rs lines 90-95).  `num_items` is a
Rust `u8`; the embedding stores it as a `Nat` and every source write site
reduces `% 256` (the `as u8` cast in `update_fields`). -/
structure Playlist where
  title : String
  numItems : Nat
  videos : List Video
  url : String
  deriving DecidableEq, Repr

/-- Base URL constant used by `Playlist::compose_playlist_url` and
`Playlist::default`. -/
def playlistBaseUrl : String := "http://www.youtube.com/watch_videos?video_ids="

/-- Embeds `impl Default for Playlist` (src/playlist.rs lines 97-106). -/
def Playlist.default : Playlist :=
  { title := "untitled", numItems := 0, videos := [], url := playlistBaseUrl }

/-- Embeds `Playlist::compose_playlist_url` (src/playlist.rs lines 171-181):
base url plus the comma-joined ids of `videos`, in order. -/
def Playlist.composePlaylistUrl (p : Playlist) : String :=
  playlistBaseUrl ++ String.intercalate "," (p.videos.map Video.id)

/-- Embeds `Playlist::update_fields` (src/playlist.rs lines 137-140):
`num_items = videos.len() as u8` (hence `% 256`) and
`url = compose_playlist_url()`. -/
def Playlist.updateFields (p : Playlist) : Playlist :=
  { p with numItems := p.videos.length % 256, url := p.composePlaylistUrl }

/-- Embeds `Playlist::new` (src/playlist.rs lines 126-133). -/
def Playlist.new (title : String) : Playlist :=
  Playlist.updateFields { Playlist.default with title := title }

/-- Embeds `Playlist::add_videos` (src/playlist.rs lines 147-157).  The new
batch is built with `Video::from`, then `retain` drops exactly those whose id
already occurs in `self.videos` (Rust `contains` uses the id-only `PartialEq`
of `Video`); the survivors are appended and fields are updated.  Note the
`retain` predicate consults only the pre-existing `self.videos`, so
duplicates inside `ids` itself are not filtered against each other. -/
def Playlist.addVideos (p : Playlist) (ids : List String) : Playlist :=
  let videos := (ids.map Video.fromId).filter
    (fun video => !(p.videos.any (fun w => w.id == video.id)))
  Playlist.updateFields { p with videos := p.videos ++ videos }

/-- Embeds `Playlist::remove_videos` (src/playlist.rs lines 163-166):
retain the videos whose id is not in `ids`, then update fields. -/
def Playlist.removeVideos (p : Playlist) (ids : List String) : Playlist :=
  Playlist.updateFields
    { p with videos := p.videos.filter (fun video => !(ids.contains video.id)) }

/-- The request id list built at the start of `Playlist::fetch_metadata`
(src/playlist.rs lines 186-191): ids of the videos with `fetched == false`,
in order. -/
def Playlist.requestIds (p : Playlist) : List String :=
  (p.videos.filter (fun video => !video.fetched)).map Video.id

/-- Embeds `Playlist::fetch_metadata` (src/playlist.rs lines 185-213).  The
provider oracle stands for `youtube_api::make_video_request`; the third
component records every request issued to it, in order (the source makes
exactly one call, unconditionally, line 193; the `?` on it propagates the
transport error with `self` untouched).  On `num_fetched == num_requested`
the videos with `fetched == true` are retained and the newly fetched videos
appended — note the source does NOT call `update_fields` on this path.
Otherwise the error carries the two counts cast `as u8` (hence `% 256`). -/
def Playlist.fetchMetadata (provider : List String → Except Error Response)
    (p : Playlist) : Except Error Unit × Playlist × List (List String) :=
  let ids := p.requestIds
  match provider ids with
  | Except.error e => (Except.error e, p, [ids])
  | Except.ok response =>
    let newlyFetched := response.items.map Video.fromResponseItem
    let numRequested := ids.length
    let numFetched := newlyFetched.length
    if numFetched = numRequested then
      (Except.ok (), { p with videos := p.videos.filter Video.fetched ++ newlyFetched }, [ids])
    else
      (Except.error (Error.notEnoughResponseItems (numRequested % 256) (numFetched % 256)),
        p, [ids])

/-- JSON document values, the abstraction level at which serde_json is
modelled (see the header comment). -/
inductive Json where
  | null
  | str (s : String)
  | num (n : Nat)
  | bool (b : Bool)
  | arr (elems : List Json)
  | obj (fields : List (String × Json))
  deriving Repr

/-- Serialization of `Video` as derived by serde with
`rename_all = "camelCase"`: fields in declaration order. -/
def Video.toJson (v : Video) : Json :=
  Json.obj [("id", Json.str v.id), ("title", Json.str v.title),
            ("publishedAt", Json.str v.publishedAt), ("url", Json.str v.url),
            ("fetched", Json.bool v.fetched)]

/-- Deserialization of `Video`: all five fields are required (no serde
defaults on the struct).  The embedding matches the exact field order that
`Video.toJson` emits; serde also accepts permuted fields, which no claim
depends on. -/
def Video.fromJson : Json → Except Error Video
  | Json.obj [("id", Json.str id), ("title", Json.str title),
              ("publishedAt", Json.str publishedAt), ("url", Json.str url),
              ("fetched", Json.bool fetched)] =>
    Except.ok { id := id, title := title, publishedAt := publishedAt,
                url := url, fetched := fetched }
  | _ => Except.error Error.json

/-- Element-wise deserialization of a JSON array of videos. -/
def videosFromJson : List Json → Except Error (List Video)
  | [] => Except.ok []
  | j :: rest => do
    let v ← Video.fromJson j
    let vs ← videosFromJson rest
    pure (v :: vs)

/-- Serialization of `Playlist` as derived by serde: title, numItems,
videos, url, in declaration order.  `num_items : u8` serializes as a
number. -/
def Playlist.toJson (p : Playlist) : Json :=
  Json.obj [("title", Json.str p.title), ("numItems", Json.num p.numItems),
            ("videos", Json.arr (p.videos.map Video.toJson)),
            ("url", Json.str p.url)]

/-- Deserialization of `Playlist`: all fields required and trusted verbatim
(no re-derivation); the `numItems` number must fit in a `u8`, as serde
rejects out-of-range values for a `u8` field. -/
def Playlist.fromJson : Json → Except Error Playlist
  | Json.obj [("title", Json.str title), ("numItems", Json.num numItems),
              ("videos", Json.arr videos), ("url", Json.str url)] =>
    if numItems < 256 then do
      let vs ← videosFromJson videos
      pure { title := title, numItems := numItems, videos := vs, url := url }
    else Except.error Error.json
  | _ => Except.error Error.json

/-- Deserialization target of `load_playlist` (src/playlist.rs line 256):
the inferred serde target is `Option<Playlist>`, for which JSON `null` reads
as `None` and anything else reads as `Some` of a playlist. -/
def optionPlaylistFromJson (j : Json) : Except Error (Option Playlist) :=
  match j with
  | Json.null => Except.ok none
  | j => (Playlist.fromJson j).map some

/-- Contents of one file in the store: either a valid JSON document, or the
zero-length file that `load_or_create_file` creates (an empty string is not
a valid JSON document, so reading it back through serde_json fails). -/
inductive FileContent where
  | jsonVal (j : Json)
  | emptyFile

/-- The file store: absolute path to optional contents. -/
def FS := String → Option FileContent

/-- The path both `save_playlist` and `load_playlist` resolve:
`[&file_path, &title].iter().collect::<PathBuf>()` with extension set to
`json`, then `utils::expand_path_aliases` (external collaborator, modelled as
the identity).  Save and load use this same function. -/
def playlistFilePath (dir title : String) : String :=
  dir ++ "/" ++ title ++ ".json"

/-- Embeds `Playlist::save_playlist` (src/playlist.rs lines 217-228):
serialize all fields and overwrite the resource unconditionally.  The
environmental write-failure case (`fs::write` returning an IO error) is not
modelled; the success path is total. -/
def Playlist.savePlaylist (p : Playlist) (dir : String) (fs : FS) : FS :=
  fun path =>
    if path = playlistFilePath dir p.title then some (FileContent.jsonVal p.toJson)
    else fs path

/-- Embeds `load_or_create_file` (src/playlist.rs lines 268-281): return the
contents when the file exists; when it does not exist, create it empty and
return none.  Environmental IO failures other than not-found are not
modelled. -/
def loadOrCreateFile (fs : FS) (path : String) :
    Except Error (Option FileContent) × FS :=
  match fs path with
  | some content => (Except.ok (some content), fs)
  | none => (Except.ok none, fun q => if q = path then some FileContent.emptyFile else fs q)

/-- Embeds `load_playlist` (src/playlist.rs lines 236-260): resolve the
path, call `load_or_create_file`; absence yields `Ok(None)` (a non-error
signal), presence deserializes the contents via serde_json into
`Option<Playlist>` — an empty file fails that deserialization with a JSON
error. -/
def loadPlaylist (title dir : String) (fs : FS) :
    Except Error (Option Playlist) × FS :=
  let path := playlistFilePath dir title
  match loadOrCreateFile fs path with
  | (Except.error e, fs1) => (Except.error e, fs1)
  | (Except.ok none, fs1) => (Except.ok none, fs1)
  | (Except.ok (some (FileContent.jsonVal j)), fs1) => (optionPlaylistFromJson j, fs1)
  | (Except.ok (some FileContent.emptyFile), fs1) => (Except.error Error.json, fs1)

instance {ε α : Type} [DecidableEq ε] [DecidableEq α] : DecidableEq (Except ε α) := fun a b =>
  match a, b with
  | Except.ok x, Except.ok y =>
    match decEq x y with
    | isTrue h => isTrue (by rw [h])
    | isFalse h => isFalse (fun hc => h (Except.ok.inj hc))
  | Except.error x, Except.error y =>
    match decEq x y with
    | isTrue h => isTrue (by rw [h])
    | isFalse h => isFalse (fun hc => h (Except.error.inj hc))
  | Except.ok _, Except.error _ => isFalse (fun hc => Except.noConfusion hc)
  | Except.error _, Except.ok _ => isFalse (fun hc => Except.noConfusion hc)

/-! Concrete fixtures used by counterexamples and witnesses. -/

/-- An unfetched video with id `a`, as built by `add_videos`. -/
def unfetchedVideoA : Video := Video.fromId "a"

/-- A fetched video with id `b`. -/
def fetchedVideoB : Video := { Video.fromId "b" with fetched := true }

/-- A provider response with zero items. -/
def emptyResponse : Response := { kind := "", items := [] }

/-- A provider that answers every request with zero items. -/
def emptyProvider : List String → Except Error Response := fun _ => Except.ok emptyResponse

/-- A playlist holding 256 unfetched videos. -/
def bigPlaylist : Playlist :=
  { title := "t", numItems := 0, videos := List.replicate 256 unfetchedVideoA,
    url := playlistBaseUrl }

/-- A playlist with a single unfetched video. -/
def oneUnfetchedPlaylist : Playlist :=
  { title := "t", numItems := 1, videos := [unfetchedVideoA], url := playlistBaseUrl ++ "a" }

/-- A snippet with title and publication date present. -/
def snippetA : ResponseSnippet :=
  { publishedAt := some "2020-01-01T00:00:00Z", channelId := none, title := some "Video A",
    description := none, channelTitle := none, tags := none, categoryId := none }

/-- A response record for id `a`. -/
def itemA : ResponseItem := { kind := "youtube#video", id := "a", snippet := snippetA }

/-- A response holding exactly the record for id `a`. -/
def responseA : Response := { kind := "", items := [itemA] }

/-- A provider that answers every request with `responseA`. -/
def providerA : List String → Except Error Response := fun _ => Except.ok responseA

/-- A snippet whose optional fields are all absent. -/
def snippetB : ResponseSnippet :=
  { publishedAt := none, channelId := none, title := none,
    description := none, channelTitle := none, tags := none, categoryId := none }

/-- A response record for id `b` with all optional metadata absent. -/
def itemB : ResponseItem := { kind := "youtube#video", id := "b", snippet := snippetB }

/-- The playlist obtained by creating `t` and adding ids `a` and `b`. -/
def abPlaylist : Playlist := (Playlist.new "t").addVideos ["a", "b"]

/-- A provider answering with records for `b` then `a` (response order differs
from request order). -/
def reorderedProvider : List String → Except Error Response :=
  fun _ => Except.ok { kind := "", items := [itemB, itemA] }

/-- A playlist holding one unfetched and one fetched video, with consistent
derived fields. -/
def mixedPlaylist : Playlist :=
  { title := "t", numItems := 2, videos := [unfetchedVideoA, fetchedVideoB],
    url := playlistBaseUrl ++ "a,b" }

/-- A playlist whose videos are all fetched. -/
def allFetchedPlaylist : Playlist :=
  { title := "t", numItems := 1, videos := [fetchedVideoB], url := playlistBaseUrl ++ "b" }

/-- A playlist whose stored `numItems` disagrees with its videos, as
obtainable from `load_playlist` (fields are trusted verbatim on load). -/
def stalePlaylist : Playlist :=
  { title := "t", numItems := 1, videos := [], url := playlistBaseUrl }

/-- A playlist with one video and consistent derived fields. -/
def consistentPlaylist : Playlist :=
  Playlist.updateFields { title := "t", numItems := 0, videos := [unfetchedVideoA], url := "" }

/-- The empty file store. -/
def emptyFS : FS := fun _ => none

/-! Shared helper lemmas. -/

/-- Helper: on a response with fewer items than requested ids,
`fetch_metadata` returns the incomplete-metadata error carrying the two
counts reduced `% 256` (the `as u8` casts), and the playlist state is the
pre-call state. -/
theorem fetchMetadata_incomplete (p : Playlist)
    (provider : List String → Except Error Response) (r : Response)
    (hp : provider p.requestIds = Except.ok r)
    (hlt : r.items.length < p.requestIds.length) :
    p.fetchMetadata provider
      = (Except.error (Error.notEnoughResponseItems
            (p.requestIds.length % 256) (r.items.length % 256)), p, [p.requestIds]) := by
  have hne := Nat.ne_of_lt hlt
  simp [Playlist.fetchMetadata, hp, hne]

/-- Helper: on a response with exactly as many items as requested ids,
`fetch_metadata` succeeds and replaces the video list with the already
fetched videos followed by one video per response record, without touching
the other playlist fields. -/
theorem fetchMetadata_complete (p : Playlist)
    (provider : List String → Except Error Response) (r : Response)
    (hp : provider p.requestIds = Except.ok r)
    (hlen : r.items.length = p.requestIds.length) :
    p.fetchMetadata provider
      = (Except.ok (), { p with videos := (p.videos.filter Video.fetched
            ++ r.items.map Video.fromResponseItem) }, [p.requestIds]) := by
  simp [Playlist.fetchMetadata, hp, hlen]

/-! Claim theorems. -/

/-- Claim C6: for every playlist, `compose_playlist_url` is the fixed base
URL followed by the ids of the videos in order, joined with commas; for ids
`id_1`, `id_2` the result is the full two-id URL, and for an empty playlist
it is exactly the base URL with an empty query value. -/
theorem c6_compose_url :
    (∀ p : Playlist, p.composePlaylistUrl
        = playlistBaseUrl ++ String.intercalate "," (p.videos.map Video.id)) ∧
    Playlist.composePlaylistUrl
        { title := "test", numItems := 2,
          videos := [Video.fromId "id_1", Video.fromId "id_2"], url := "" }
      = "http://www.youtube.com/watch_videos?video_ids=id_1,id_2" ∧
    Playlist.composePlaylistUrl
        { title := "test", numItems := 0, videos := [], url := "" }
      = "http://www.youtube.com/watch_videos?video_ids=" :=
  ⟨fun _ => rfl, by decide, by decide⟩

set_option maxRecDepth 8192 in
/-- Claim C1 counterexample: with 256 unfetched videos and a zero-item
response, the incomplete-metadata error carries the pair (0, 0) — the `u8`
casts of (256, 0) — not the pair (256, 0) the claim states. -/
theorem c1_counterexample :
    bigPlaylist.requestIds.length = 256 ∧
    emptyResponse.items.length = 0 ∧
    (bigPlaylist.fetchMetadata emptyProvider).1
        = Except.error (Error.notEnoughResponseItems 0 0) ∧
    (bigPlaylist.fetchMetadata emptyProvider).1
        ≠ Except.error (Error.notEnoughResponseItems 256 0) := by
  refine ⟨by decide, rfl, by decide, ?_⟩
  intro hc
  have h0 : (bigPlaylist.fetchMetadata emptyProvider).1
      = Except.error (Error.notEnoughResponseItems 0 0) := by decide
  rw [h0] at hc
  have := Except.error.inj hc
  simp at this

/-- Claim C1 (amended): on a response of size F to a request set of size R
with F < R, `fetch_metadata` returns the incomplete-metadata error carrying
the pair (R mod 256, F mod 256) — the counts pass through an `as u8` cast —
and the playlist state (videos, numItems, url, title) is exactly its
pre-call value: no partial merge happens. -/
theorem c1_incomplete_metadata (p : Playlist)
    (provider : List String → Except Error Response) (r : Response)
    (hp : provider p.requestIds = Except.ok r)
    (hlt : r.items.length < p.requestIds.length) :
    p.fetchMetadata provider
      = (Except.error (Error.notEnoughResponseItems
            (p.requestIds.length % 256) (r.items.length % 256)), p, [p.requestIds]) :=
  fetchMetadata_incomplete p provider r hp hlt

/-- Claim C1 witness: one unfetched video, zero-item response. -/
theorem c1_incomplete_metadata_witness :
    oneUnfetchedPlaylist.fetchMetadata emptyProvider
      = (Except.error (Error.notEnoughResponseItems 1 0), oneUnfetchedPlaylist, [["a"]]) :=
  c1_incomplete_metadata oneUnfetchedPlaylist emptyProvider emptyResponse rfl (by decide)

/-- Claim C4: when the response record count equals the request-set size,
`fetch_metadata` succeeds and replaces `videos` with the sub-sequence of
videos that already had `fetched == true` (filter preserves their relative
order) followed by one video per response record in response order; each
such video has `fetched = true`, url derived from the record id, and
title/publishedAt taken from the record or defaulted to the empty string. -/
theorem c4_fetch_success (p : Playlist)
    (provider : List String → Except Error Response) (r : Response)
    (hp : provider p.requestIds = Except.ok r)
    (hlen : r.items.length = p.requestIds.length) :
    p.fetchMetadata provider
      = (Except.ok (), { p with videos := (p.videos.filter Video.fetched
            ++ r.items.map Video.fromResponseItem) }, [p.requestIds]) ∧
    ∀ item : ResponseItem,
      Video.fromResponseItem item
        = { id := item.id, title := item.snippet.title.getD "",
            publishedAt := item.snippet.publishedAt.getD "",
            url := videoBaseUrl ++ item.id, fetched := true } :=
  ⟨fetchMetadata_complete p provider r hp hlen, fun _ => rfl⟩

/-- Claim C4 witness: a playlist with one unfetched and one fetched video
and a one-record response. -/
theorem c4_fetch_success_witness :
    mixedPlaylist.fetchMetadata providerA
      = (Except.ok (),
         { title := "t", numItems := 2,
           videos := [fetchedVideoB,
             { id := "a", title := "Video A", publishedAt := "2020-01-01T00:00:00Z",
               url := "https://www.youtube.com/watch?v=a", fetched := true }],
           url := playlistBaseUrl ++ "a,b" },
         [["a"]]) := by
  have h := (c4_fetch_success mixedPlaylist providerA responseA rfl (by decide)).1
  rw [h]
  decide

/-- Claim C5 counterexample: on a playlist whose videos are all fetched (the
request set is empty), `fetch_metadata` still issues one provider call,
carrying the empty id list — the claim states no call is made. -/
theorem c5_counterexample :
    (∀ v ∈ allFetchedPlaylist.videos, v.fetched = true) ∧
    (allFetchedPlaylist.fetchMetadata emptyProvider).2.2 = [[]] ∧
    (allFetchedPlaylist.fetchMetadata emptyProvider).2.2 ≠ [] := by
  refine ⟨by decide, by decide, by decide⟩

/-- Claim C5 (amended): on a playlist whose videos are all fetched, the
request set is empty but `fetch_metadata` still issues exactly one provider
call with the empty id list; when the provider answers with a zero-item
response the operation succeeds and leaves the playlist exactly unchanged. -/
theorem c5_empty_request (p : Playlist)
    (provider : List String → Except Error Response) (r : Response)
    (hall : ∀ v ∈ p.videos, v.fetched = true)
    (hp : provider [] = Except.ok r) (hitems : r.items = []) :
    p.fetchMetadata provider = (Except.ok (), p, [[]]) := by
  have hids : p.requestIds = [] := by
    have hfil : p.videos.filter (fun video => !video.fetched) = [] := by
      rw [List.filter_eq_nil_iff]
      intro a ha
      simp [hall a ha]
    simp [Playlist.requestIds, hfil]
  have hkeep : p.videos.filter Video.fetched = p.videos := by
    rw [List.filter_eq_self]
    exact hall
  have h := fetchMetadata_complete p provider r (by rw [hids]; exact hp)
    (by rw [hids, hitems]; rfl)
  rw [h, hids, hitems, hkeep]
  simp

/-- Claim C5 witness: an all-fetched playlist with the zero-item provider. -/
theorem c5_empty_request_witness :
    allFetchedPlaylist.fetchMetadata emptyProvider
      = (Except.ok (), allFetchedPlaylist, [[]]) :=
  c5_empty_request allFetchedPlaylist emptyProvider emptyResponse (by decide) rfl rfl

/-- Claim C3 counterexample: adding the id list `[a, a]` to a fresh playlist
appends BOTH occurrences — the `retain` in `add_videos` only filters against
the pre-existing members, not against the batch itself — so two elements of
`videos` share an id, contrary to the claim. -/
theorem c3_counterexample :
    (((Playlist.new "t").addVideos ["a", "a"]).videos.map Video.id = ["a", "a"]) ∧
    ¬ (((Playlist.new "t").addVideos ["a", "a"]).videos.map Video.id).Nodup := by
  refine ⟨by decide, by decide⟩

/-- Claim C3 (amended): `add_videos` never errors (it is total); the ids
whose id already occurs in the playlist are silently dropped and every other
occurrence — including duplicates within the same call, which are NOT
deduplicated against each other — is appended, in relative input order, as
an unfetched video at the end of `videos`; consequently the no-two-ids
invariant survives only when the playlist ids were unique and the input ids
are pairwise distinct. -/
theorem c3_add_videos (p : Playlist) (ids : List String) :
    ((p.addVideos ids).videos
        = p.videos ++ (ids.filter
            (fun i => !(p.videos.any (fun w => w.id == i)))).map Video.fromId) ∧
    (∀ i : String, (Video.fromId i).fetched = false ∧ (Video.fromId i).id = i) ∧
    ((p.videos.map Video.id).Nodup → ids.Nodup →
      ((p.addVideos ids).videos.map Video.id).Nodup) := by
  have hvideos : (p.addVideos ids).videos
      = p.videos ++ (ids.filter
          (fun i => !(p.videos.any (fun w => w.id == i)))).map Video.fromId := by
    show p.videos ++ _ = _
    rw [List.filter_map]
    rfl
  refine ⟨hvideos, fun i => ⟨rfl, rfl⟩, fun hp hids => ?_⟩
  rw [hvideos, List.map_append, List.map_map]
  have hcomp : List.map (Video.id ∘ Video.fromId)
      (ids.filter (fun i => !(p.videos.any (fun w => w.id == i))))
      = ids.filter (fun i => !(p.videos.any (fun w => w.id == i))) :=
    List.map_id' _
  rw [hcomp, List.nodup_append]
  refine ⟨hp, hids.filter _, ?_⟩
  intro a ha hb
  obtain ⟨v, hv, rfl⟩ := List.mem_map.1 ha
  have h2 := (List.mem_filter.1 hb).2
  have h3 : p.videos.any (fun w => w.id == v.id) = true :=
    List.any_eq_true.2 ⟨v, hv, by simp⟩
  simp [h3] at h2

/-- Claim C3 witness: adding two distinct fresh ids to a fresh playlist. -/
theorem c3_add_videos_witness :
    ((Playlist.new "t").addVideos ["a", "b"]).videos
        = [Video.fromId "a", Video.fromId "b"] ∧
    (((Playlist.new "t").addVideos ["a", "b"]).videos.map Video.id).Nodup := by
  have h := c3_add_videos (Playlist.new "t") ["a", "b"]
  exact ⟨by rw [h.1]; decide, h.2.2 (by decide) (by decide)⟩

/-- Claim C2 (code bug exhibit): from the fresh playlist `t` with ids `a`,
`b` added — whose derived fields are consistent — a successful reconcile
whose response lists `b` before `a` reorders `videos` but does NOT recompute
the derived fields (`fetch_metadata` never calls `update_fields`), leaving
`url` stale: it still lists `a,b` while `compose_playlist_url` on the new
state yields `b,a`.  `numItems` stays consistent only because this path
preserves the length of `videos`. -/
theorem c2_stale_url_after_reconcile :
    abPlaylist.numItems = abPlaylist.videos.length ∧
    abPlaylist.url = abPlaylist.composePlaylistUrl ∧
    (abPlaylist.fetchMetadata reorderedProvider).1 = Except.ok () ∧
    (abPlaylist.fetchMetadata reorderedProvider).2.1.url
        = "http://www.youtube.com/watch_videos?video_ids=a,b" ∧
    (abPlaylist.fetchMetadata reorderedProvider).2.1.composePlaylistUrl
        = "http://www.youtube.com/watch_videos?video_ids=b,a" ∧
    (abPlaylist.fetchMetadata reorderedProvider).2.1.url
        ≠ (abPlaylist.fetchMetadata reorderedProvider).2.1.composePlaylistUrl := by
  refine ⟨by decide, by decide, by decide, by decide, by decide, by decide⟩

/-- Claim C8 counterexample: a playlist whose stored `numItems` (1) does not
match its (empty) video list — a state obtainable from `load_playlist`,
which trusts all fields verbatim — is changed by removing a non-member id,
because `remove_videos` unconditionally re-derives `numItems` and `url`. -/
theorem c8_counterexample :
    ("y" ∉ stalePlaylist.videos.map Video.id) ∧
    stalePlaylist.removeVideos ["y"] ≠ stalePlaylist := by
  refine ⟨by decide, by decide⟩

/-- Claim C8 (amended): for every playlist whose derived fields are
consistent (`numItems` is the stored `u8` of `len(videos)` and `url` is the
composed URL) and every id `y` that is no member, `remove_videos [y]` is a
no-op under deep equality; it never errors (it is total). -/
theorem c8_remove_nonmember (p : Playlist) (y : String)
    (hnum : p.numItems = p.videos.length % 256)
    (hurl : p.url = p.composePlaylistUrl)
    (hy : ∀ v ∈ p.videos, v.id ≠ y) :
    p.removeVideos [y] = p := by
  have hfilter : p.videos.filter (fun video => !([y].contains video.id)) = p.videos := by
    rw [List.filter_eq_self]
    intro a ha
    simp [hy a ha]
  obtain ⟨title, numItems, videos, url⟩ := p
  simp only [Playlist.removeVideos, Playlist.updateFields, Playlist.composePlaylistUrl] at *
  rw [hfilter, hnum, hurl]

/-- Claim C8 witness: a consistent one-video playlist and a non-member id. -/
theorem c8_remove_nonmember_witness :
    consistentPlaylist.removeVideos ["y"] = consistentPlaylist :=
  c8_remove_nonmember consistentPlaylist "y" rfl rfl (by decide)

/-- Claim C10: every count the program materializes is an 8-bit truncation:
`update_fields` stores `len(videos) % 256` into `numItems`, so after an
`add_videos` or `remove_videos` that leaves 256 or more videos `numItems`
differs from `len(videos)`; and a failed reconciliation stores the requested
and fetched counts `% 256` into the incomplete-metadata error, so for a
request set of 256 or more ids the reported requested count differs from
the true one. -/
theorem c10_u8_truncation :
    (∀ p : Playlist, (Playlist.updateFields p).numItems = p.videos.length % 256) ∧
    (∀ (p : Playlist) (ids : List String),
      256 ≤ (p.addVideos ids).videos.length →
      (p.addVideos ids).numItems ≠ (p.addVideos ids).videos.length) ∧
    (∀ (p : Playlist) (ids : List String),
      256 ≤ (p.removeVideos ids).videos.length →
      (p.removeVideos ids).numItems ≠ (p.removeVideos ids).videos.length) ∧
    (∀ (p : Playlist) (provider : List String → Except Error Response) (r : Response),
      provider p.requestIds = Except.ok r →
      r.items.length < p.requestIds.length →
      256 ≤ p.requestIds.length →
      (p.fetchMetadata provider).1
        = Except.error (Error.notEnoughResponseItems
            (p.requestIds.length % 256) (r.items.length % 256)) ∧
      p.requestIds.length % 256 ≠ p.requestIds.length) := by
  have hmod : ∀ n : Nat, 256 ≤ n → n % 256 ≠ n := fun n h =>
    Nat.ne_of_lt (Nat.lt_of_lt_of_le (Nat.mod_lt n (by norm_num)) h)
  refine ⟨fun p => rfl, fun p ids h => ?_, fun p ids h => ?_, fun p provider r hp hlt h => ?_⟩
  · exact hmod _ h
  · exact hmod _ h
  · exact ⟨by rw [fetchMetadata_incomplete p provider r hp hlt], hmod _ h⟩

set_option maxRecDepth 8192 in
/-- Claim C10 witness: concrete playlists that cross the 256 boundary. -/
theorem c10_u8_truncation_witness :
    (Playlist.updateFields stalePlaylist).numItems = 0 ∧
    (Playlist.default.addVideos (List.replicate 256 "a")).numItems
        ≠ (Playlist.default.addVideos (List.replicate 256 "a")).videos.length ∧
    (bigPlaylist.removeVideos []).numItems
        ≠ (bigPlaylist.removeVideos []).videos.length ∧
    ((bigPlaylist.fetchMetadata emptyProvider).1
        = Except.error (Error.notEnoughResponseItems 0 0) ∧
      (256 : Nat) % 256 ≠ 256) := by
  have h := c10_u8_truncation
  refine ⟨h.1 stalePlaylist, h.2.1 Playlist.default _ (by decide),
    h.2.2.1 bigPlaylist [] (by decide), ?_⟩
  exact h.2.2.2 bigPlaylist emptyProvider emptyResponse rfl (by decide) (by decide)

/-- Helper: deserializing a serialized video restores it verbatim. -/
theorem videoFromJson_toJson (v : Video) : Video.fromJson v.toJson = Except.ok v := rfl

/-- Helper: element-wise deserialization of serialized videos restores the
list verbatim. -/
theorem videosFromJson_map_toJson (l : List Video) :
    videosFromJson (l.map Video.toJson) = Except.ok l := by
  induction l with
  | nil => rfl
  | cons v rest ih =>
    show (do
        let v2 ← Video.fromJson v.toJson
        let vs ← videosFromJson (rest.map Video.toJson)
        pure (v2 :: vs)) = Except.ok (v :: rest)
    rw [videoFromJson_toJson, ih]
    rfl

/-- Helper: deserializing a serialized playlist restores it verbatim,
provided the stored `numItems` fits in a `u8` — which every playlist the
Rust code can represent satisfies, `num_items` being a `u8` field. -/
theorem playlistFromJson_toJson (p : Playlist) (h : p.numItems < 256) :
    Playlist.fromJson p.toJson = Except.ok p := by
  have hstep : Playlist.fromJson p.toJson
      = if p.numItems < 256 then
          (do
            let vs ← videosFromJson (p.videos.map Video.toJson)
            pure { title := p.title, numItems := p.numItems, videos := vs, url := p.url })
        else Except.error Error.json := rfl
  rw [hstep, if_pos h, videosFromJson_map_toJson]
  rfl

/-- Helper: the serde target of `load_playlist` is `Option<Playlist>`; a
serialized playlist (an object, never `null`) reads back as `Some` of the
playlist. -/
theorem optionPlaylistFromJson_toJson (p : Playlist) (h : p.numItems < 256) :
    optionPlaylistFromJson p.toJson = Except.ok (some p) := by
  have hstep : optionPlaylistFromJson p.toJson
      = (Playlist.fromJson p.toJson).map some := rfl
  rw [hstep, playlistFromJson_toJson p h]
  rfl

/-- Claim C7: saving a playlist and loading it back by its title yields a
playlist deep-equal to the original: all fields are serialized and
deserialized verbatim with no re-derivation.  The hypothesis is the
validity of the stored count as a `u8`, which holds for every playlist the
Rust type can represent. -/
theorem c7_save_load_round_trip (p : Playlist) (dir : String) (fs : FS)
    (h : p.numItems < 256) :
    loadPlaylist p.title dir (p.savePlaylist dir fs)
      = (Except.ok (some p), p.savePlaylist dir fs) := by
  have hfs : (p.savePlaylist dir fs) (playlistFilePath dir p.title)
      = some (FileContent.jsonVal p.toJson) := if_pos rfl
  have hload : loadOrCreateFile (p.savePlaylist dir fs) (playlistFilePath dir p.title)
      = (Except.ok (some (FileContent.jsonVal p.toJson)), p.savePlaylist dir fs) := by
    simp only [loadOrCreateFile]
    rw [hfs]
  have hmain : loadPlaylist p.title dir (p.savePlaylist dir fs)
      = (optionPlaylistFromJson p.toJson, p.savePlaylist dir fs) := by
    simp only [loadPlaylist]
    rw [hload]
  rw [hmain, optionPlaylistFromJson_toJson p h]

/-- Claim C7 witness: round trip on a concrete playlist over the empty
store. -/
theorem c7_save_load_round_trip_witness :
    loadPlaylist "t" "d" ((Playlist.new "t").savePlaylist "d" emptyFS)
      = (Except.ok (some (Playlist.new "t")), (Playlist.new "t").savePlaylist "d" emptyFS) :=
  c7_save_load_round_trip (Playlist.new "t") "d" emptyFS (by decide)

/-- Claim C9: loading a playlist whose resource does not exist creates an
empty (zero-length) resource at that path and reports Ok-none — the
"not found" signal, distinct from the error cases — and a second load of
that same still-empty resource fails with the JSON serialization error,
because an empty file is not a valid JSON document. -/
theorem c9_fresh_file_signal (title dir : String) (fs : FS)
    (h : fs (playlistFilePath dir title) = none) :
    (loadPlaylist title dir fs).1 = Except.ok none ∧
    (loadPlaylist title dir fs).2 (playlistFilePath dir title)
        = some FileContent.emptyFile ∧
    (loadPlaylist title dir (loadPlaylist title dir fs).2).1 = Except.error Error.json := by
  have hload1 : loadOrCreateFile fs (playlistFilePath dir title)
      = (Except.ok none,
         fun q => if q = playlistFilePath dir title then some FileContent.emptyFile else fs q) := by
    simp only [loadOrCreateFile]
    rw [h]
  have hmain1 : loadPlaylist title dir fs
      = (Except.ok none,
         fun q => if q = playlistFilePath dir title then some FileContent.emptyFile else fs q) := by
    simp only [loadPlaylist]
    rw [hload1]
  have hfs2 : (loadPlaylist title dir fs).2 (playlistFilePath dir title)
      = some FileContent.emptyFile := by
    rw [hmain1]
    exact if_pos rfl
  have hload2 : loadOrCreateFile (loadPlaylist title dir fs).2 (playlistFilePath dir title)
      = (Except.ok (some FileContent.emptyFile), (loadPlaylist title dir fs).2) := by
    simp only [loadOrCreateFile]
    rw [hfs2]
  have hmain2 : ∀ fs1 : FS,
      loadOrCreateFile fs1 (playlistFilePath dir title)
        = (Except.ok (some FileContent.emptyFile), fs1) →
      loadPlaylist title dir fs1 = (Except.error Error.json, fs1) := by
    intro fs1 h1
    simp only [loadPlaylist]
    rw [h1]
  refine ⟨by rw [hmain1], hfs2, by rw [hmain2 _ hload2]⟩

/-- Claim C9 witness: loading a missing playlist twice over the empty
store. -/
theorem c9_fresh_file_signal_witness :
    (loadPlaylist "t" "d" emptyFS).1 = Except.ok none ∧
    (loadPlaylist "t" "d" emptyFS).2 (playlistFilePath "d" "t")
        = some FileContent.emptyFile ∧
    (loadPlaylist "t" "d" (loadPlaylist "t" "d" emptyFS).2).1 = Except.error Error.json :=
  c9_fresh_file_signal "t" "d" emptyFS rfl

end Oxysound
